import Mathlib

/-!
# Verification of the maps-scraper-api harvest engine and job tracker

Shallow embedding of `app/scraper.py` (class `GoogleMapsScraper`) and
`app/main.py` (FastAPI job tracker) of the `maps-scraper-api` repository,
together with proofs of the testable properties stated in its specification.

Modelling conventions:
* Review identifiers are treated as abstract tokens; the scroll loop is stated over an arbitrary
  type with decidable equality (the Python code uses strings).
* Python `set` becomes `Finset`; Python `None`-able attributes become
  `Option`; a raised exception becomes an `Except` / explicit error value.
* The browser driver is replaced by an environment record (`ScrapeWorld`)
  that fixes the outcome of every externally-visible query the code makes,
  so each method becomes a pure function of that environment.
-/

set_option autoImplicit false

namespace MapsScraper

/-! ## Scroll-Collect Loop (`GoogleMapsScraper._scroll_reviews`)

The Python loop (scraper.py lines 157-190):

```
seen_ids = set(); stale_count = 0; scroll_count = 0; max_stale = 6
while stale_count < max_stale and scroll_count < self.max_scrolls:
    <scroll to bottom; sleep scroll_pause>
    current_ids = {rid of each //div[@data-review-id] with truthy rid}
    new_reviews = current_ids - seen_ids
    if new_reviews: seen_ids.update(new_reviews); stale_count = 0
    else: stale_count += 1
    scroll_count += 1
return seen_ids
```

A simulated session is a schedule `sched : Nat → Finset α`: `sched i` is the
set of identifiers present in the DOM when the loop rescans on its
`i`-th attempt (0-based).  The recursion is structural on the remaining
attempt budget `rem = max_scrolls - scroll_count`, which the Python guard
`scroll_count < self.max_scrolls` decrements by one per iteration. -/

/-- `max_stale = 6`, hard-coded in `_scroll_reviews`. -/
def maxStale : Nat := 6

/-- One execution of the `while` loop of `_scroll_reviews` starting from
state `(seen, stale, count)` with `rem` attempts left before the
`scroll_count < max_scrolls` guard fails.  Returns the final `seen_ids`
together with the number of attempts performed (`scroll_count`). -/
def scrollGo {α : Type} [DecidableEq α] (sched : Nat → Finset α) :
    Finset α → Nat → Nat → Nat → Finset α × Nat
  | seen, _, count, 0 => (seen, count)
  | seen, stale, count, rem + 1 =>
    if stale < maxStale then
      let current := sched count
      let newIds := current \ seen
      if newIds = ∅ then
        scrollGo sched seen (stale + 1) (count + 1) rem
      else
        scrollGo sched (seen ∪ newIds) 0 (count + 1) rem
    else (seen, count)

/-- `_scroll_reviews` run against the simulated session `sched` with the
configured `max_scrolls` ceiling: final `seen_ids` and number of scroll
attempts performed. -/
def scroll_reviews {α : Type} [DecidableEq α] (sched : Nat → Finset α)
    (maxScrolls : Nat) : Finset α × Nat :=
  scrollGo sched ∅ 0 0 maxScrolls

/-- Union of the `current_ids` sets observed on the first `n` attempts. -/
def seenUpTo {α : Type} [DecidableEq α] (sched : Nat → Finset α) : Nat → Finset α
  | 0 => ∅
  | n + 1 => seenUpTo sched n ∪ sched n

section ScrollLemmas

variable {α : Type} [DecidableEq α] (sched : Nat → Finset α)

lemma scrollGo_zero (seen : Finset α) (stale count : Nat) :
    scrollGo sched seen stale count 0 = (seen, count) := rfl

lemma scrollGo_succ (seen : Finset α) (stale count rem : Nat) :
    scrollGo sched seen stale count (rem + 1) =
      if stale < maxStale then
        (if sched count \ seen = ∅ then
          scrollGo sched seen (stale + 1) (count + 1) rem
        else
          scrollGo sched (seen ∪ (sched count \ seen)) 0 (count + 1) rem)
      else (seen, count) := rfl

lemma seenUpTo_succ (n : Nat) :
    seenUpTo sched (n + 1) = seenUpTo sched n ∪ sched n := rfl

lemma seenUpTo_mono {m n : Nat} (h : m ≤ n) :
    seenUpTo sched m ⊆ seenUpTo sched n := by
  induction n with
  | zero => simp [Nat.le_zero.mp h]
  | succ n ih =>
    rcases Nat.lt_or_ge m (n + 1) with hlt | hge
    · exact (ih (Nat.lt_succ_iff.mp hlt)).trans
        (by rw [seenUpTo_succ]; exact Finset.subset_union_left)
    · have : m = n + 1 := Nat.le_antisymm h hge
      subst this; exact Finset.Subset.refl _

/-- `seen_ids` only ever grows: from any intermediate loop state, the final
`seen_ids` contains the current one. -/
lemma scrollGo_seen_mono :
    ∀ (rem : Nat) (seen : Finset α) (stale count : Nat),
      seen ⊆ (scrollGo sched seen stale count rem).1 := by
  intro rem
  induction rem with
  | zero => intro seen stale count; rw [scrollGo_zero]
  | succ rem ih =>
    intro seen stale count
    rw [scrollGo_succ]
    by_cases hst : stale < maxStale
    · rw [if_pos hst]
      by_cases hnew : sched count \ seen = ∅
      · rw [if_pos hnew]; exact ih seen (stale + 1) (count + 1)
      · rw [if_neg hnew]
        exact Finset.subset_union_left.trans
          (ih (seen ∪ (sched count \ seen)) 0 (count + 1))
    · rw [if_neg hst]

/-- Along the real execution, `seen_ids` when `scroll_count = count` equals
the union of the `current_ids` sets observed so far, and this invariant is
preserved to the end of the loop. -/
lemma scrollGo_seen_eq :
    ∀ (rem count stale : Nat),
      (scrollGo sched (seenUpTo sched count) stale count rem).1 =
        seenUpTo sched ((scrollGo sched (seenUpTo sched count) stale count rem).2) := by
  intro rem
  induction rem with
  | zero => intro count stale; rw [scrollGo_zero]
  | succ rem ih =>
    intro count stale
    rw [scrollGo_succ]
    by_cases hst : stale < maxStale
    · rw [if_pos hst]
      by_cases hnew : sched count \ seenUpTo sched count = ∅
      · rw [if_pos hnew]
        have hsub : sched count ⊆ seenUpTo sched count :=
          Finset.sdiff_eq_empty_iff_subset.mp hnew
        have heq : seenUpTo sched count = seenUpTo sched (count + 1) := by
          rw [seenUpTo_succ, Finset.union_eq_left.mpr hsub]
        rw [heq]; exact ih (count + 1) (stale + 1)
      · rw [if_neg hnew]
        have heq : seenUpTo sched count ∪ (sched count \ seenUpTo sched count)
            = seenUpTo sched (count + 1) := by
          rw [Finset.union_sdiff_self_eq_union, seenUpTo_succ]
        rw [heq]; exact ih (count + 1) 0
    · rw [if_neg hst]

end ScrollLemmas

/-- **C1.** The `seen_ids` set maintained by `_scroll_reviews` is monotonically
non-decreasing across scroll attempts (from any intermediate loop state, the
final set contains the current set), and the set the loop returns equals the
union of all `current_ids` sets observed over the attempts it performed. -/
theorem scroll_collect_monotone_union {α : Type} [DecidableEq α]
    (sched : Nat → Finset α) (maxScrolls : Nat) :
    (∀ (seen : Finset α) (stale count rem : Nat),
        seen ⊆ (scrollGo sched seen stale count rem).1)
    ∧ (scroll_reviews sched maxScrolls).1 =
        seenUpTo sched ((scroll_reviews sched maxScrolls).2) := by
  constructor
  · intro seen stale count rem
    exact scrollGo_seen_mono sched rem seen stale count
  · have h := scrollGo_seen_eq sched maxScrolls 0 0
    simpa [scroll_reviews, seenUpTo] using h

section TerminationLemmas

variable {α : Type} [DecidableEq α] (sched : Nat → Finset α)

/-- Executions on a schedule that grows strictly on every attempt before `k`
and reveals nothing new from attempt `k` on: along the real execution, when
`scroll_count = count` the stale streak is `count - k` (truncated), and the
loop performs `min (k + maxStale) (count + rem)` attempts in total. -/
lemma scrollGo_stable_count (k : Nat)
    (hg : ∀ i, i < k → sched i \ seenUpTo sched i ≠ ∅)
    (hs : ∀ i, k ≤ i → sched i ⊆ seenUpTo sched k) :
    ∀ (rem count : Nat), count ≤ k + maxStale →
      (scrollGo sched (seenUpTo sched count) (count - k) count rem).2 =
        min (k + maxStale) (count + rem) := by
  intro rem
  induction rem with
  | zero =>
    intro count hcount
    rw [scrollGo_zero]
    exact (Nat.min_eq_right hcount).symm
  | succ rem ih =>
    intro count hcount
    have hms : maxStale = 6 := rfl
    rw [scrollGo_succ]
    by_cases hend : count = k + maxStale
    · have hst : ¬ count - k < maxStale := by omega
      rw [if_neg hst]
      show count = min (k + maxStale) (count + (rem + 1))
      omega
    · have hlt : count < k + maxStale := Nat.lt_of_le_of_ne hcount hend
      have hst : count - k < maxStale := by omega
      rw [if_pos hst]
      by_cases hck : count < k
      · have hnew : ¬ sched count \ seenUpTo sched count = ∅ := hg count hck
        rw [if_neg hnew]
        have heq : seenUpTo sched count ∪ (sched count \ seenUpTo sched count)
            = seenUpTo sched (count + 1) := by
          rw [Finset.union_sdiff_self_eq_union, seenUpTo_succ]
        have hzero : (0 : Nat) = (count + 1) - k := by omega
        rw [heq, hzero]
        have := ih (count + 1) (by omega)
        omega
      · have hk : k ≤ count := Nat.le_of_not_lt hck
        have hsub : sched count ⊆ seenUpTo sched count :=
          (hs count hk).trans (seenUpTo_mono sched hk)
        have hnew : sched count \ seenUpTo sched count = ∅ :=
          Finset.sdiff_eq_empty_iff_subset.mpr hsub
        rw [if_pos hnew]
        have heq : seenUpTo sched count = seenUpTo sched (count + 1) := by
          rw [seenUpTo_succ, Finset.union_eq_left.mpr hsub]
        have hstale : count - k + 1 = (count + 1) - k := by omega
        rw [heq, hstale]
        have := ih (count + 1) (by omega)
        omega

/-- Executions on a schedule that grows strictly on every attempt the loop can
reach: the stale streak stays 0 and the loop exhausts its whole budget. -/
lemma scrollGo_growing_count :
    ∀ (rem count : Nat),
      (∀ i, i < count + rem → sched i \ seenUpTo sched i ≠ ∅) →
      (scrollGo sched (seenUpTo sched count) 0 count rem).2 = count + rem := by
  intro rem
  induction rem with
  | zero => intro count _; rfl
  | succ rem ih =>
    intro count hg
    rw [scrollGo_succ]
    have hst : (0 : Nat) < maxStale := by simp [maxStale]
    rw [if_pos hst]
    have hnew : ¬ sched count \ seenUpTo sched count = ∅ :=
      hg count (by omega)
    rw [if_neg hnew]
    have heq : seenUpTo sched count ∪ (sched count \ seenUpTo sched count)
        = seenUpTo sched (count + 1) := by
      rw [Finset.union_sdiff_self_eq_union, seenUpTo_succ]
    rw [heq]
    have := ih (count + 1) (by intro i hi; exact hg i (by omega))
    omega

end TerminationLemmas

/-- **C2.** Number of scroll attempts performed by `_scroll_reviews`.
If the `current_ids` of the simulated session grows strictly on every attempt
before attempt `k` and reveals nothing new from attempt `k` on, the loop
performs exactly `min (k + maxStale) maxScrolls` attempts — it stops
`maxStale` stale attempts after the last growth, not later and not earlier,
capped by the `max_scrolls` ceiling.  If the content never stabilizes (every
attempt reveals a new identifier), the loop performs exactly `maxScrolls`
attempts. -/
theorem scroll_loop_attempt_count {α : Type} [DecidableEq α]
    (sched : Nat → Finset α) (maxScrolls k : Nat) :
    ((∀ i, i < k → sched i \ seenUpTo sched i ≠ ∅) →
      (∀ i, k ≤ i → sched i ⊆ seenUpTo sched k) →
      (scroll_reviews sched maxScrolls).2 = min (k + maxStale) maxScrolls)
    ∧ ((∀ i, i < maxScrolls → sched i \ seenUpTo sched i ≠ ∅) →
      (scroll_reviews sched maxScrolls).2 = maxScrolls) := by
  constructor
  · intro hg hs
    have h := scrollGo_stable_count sched k hg hs maxScrolls 0 (by omega)
    simpa [scroll_reviews, seenUpTo] using h
  · intro hg
    have h := scrollGo_growing_count sched maxScrolls 0 (by simpa using hg)
    simpa [scroll_reviews, seenUpTo] using h

/-- Witness for `scroll_loop_attempt_count`: a session revealing one new
identifier on attempt 0 and nothing afterwards stops after `1 + maxStale = 7`
attempts out of a budget of 10; a session revealing a fresh identifier on
every attempt exhausts its budget of 3 attempts. -/
theorem scroll_loop_attempt_count_witness :
    (scroll_reviews (fun i => if i = 0 then ({0} : Finset Nat) else ∅) 10).2
        = min (1 + maxStale) 10
    ∧ (scroll_reviews (fun i => ({i} : Finset Nat)) 3).2 = 3 := by
  constructor
  · refine (scroll_loop_attempt_count
      (fun i => if i = 0 then ({0} : Finset Nat) else ∅) 10 1).1 ?_ ?_
    · decide
    · intro i hi
      have hne : ¬ i = 0 := by omega
      simp [hne]
  · exact (scroll_loop_attempt_count
      (fun i => ({i} : Finset Nat)) 3 0).2 (by decide)

/-! ## Field extraction (`_extract_company_info`, `_extract_reviews`)

A review root element (`//div[@data-review-id]`) is modelled by the answers
the driver gives to the queries `_extract_reviews` performs on it.  `Option`
fields model `find_element` succeeding (`some` carries the resolved text or
attribute) or raising `NoSuchElementException` (`none`).  `staleEl = true`
models the element raising `StaleElementReferenceException` (or any other
exception) inside the per-record `try`, which skips the record.
`reviewId = ""` models `get_attribute("data-review-id")` returning a falsy
value (`None` or the empty string). -/

structure ReviewEl where
  staleEl : Bool
  reviewId : String
  /-- `aria-label` of the first descendant matching
  `.//*[contains(@aria-label,"star")]`, when one exists. -/
  starLabel : Option String
  /-- text of `.//span[@class="wiI7pd"]`, when one exists. -/
  textSpan : Option String
  /-- text of `.//div[contains(@class,"d4r55")]`, when one exists. -/
  reviewerDiv : Option String
  /-- text of `.//span[contains(@class,"rsqaWe")]`, when one exists. -/
  dateSpan : Option String
deriving DecidableEq

/-- One harvested record, the dict appended by `_extract_reviews`. -/
structure Record where
  review_id : String
  reviewer : String
  rating : String
  review_text : String
  date : String
  company_name : String
  phone_number : String
deriving DecidableEq

/-- `GoogleMapsScraper._extract_reviews` (scraper.py lines 202-260): for each
currently-present review element, skip it if it is stale or its
`data-review-id` is falsy, otherwise build a record; a missing sub-element
leaves the field at its initializer (`"No rating"` for `rating`, `""` for the
others). -/
def extract_reviews (company_name phone_number : String)
    (elements : List ReviewEl) : List Record :=
  elements.filterMap fun r =>
    if r.staleEl then none
    else if r.reviewId = "" then none
    else some
      { review_id := r.reviewId
        reviewer := (r.reviewerDiv.map String.trim).getD ""
        rating := r.starLabel.getD "No rating"
        review_text := (r.textSpan.map String.trim).getD ""
        date := (r.dateSpan.map String.trim).getD ""
        company_name := company_name
        phone_number := phone_number }

/-- An element resolved by one of the phone-number XPath candidates in
`_extract_company_info`: its visible text and its `href` attribute
(`none` models `get_attribute("href")` returning `None`). -/
structure PhoneElem where
  text : String
  href : Option String
deriving DecidableEq

/-- Value one resolved phone candidate produces in `_extract_company_info`:
the stripped element text, or — when that is empty — the `href` attribute
with every occurrence of `"tel:"` removed (`str.replace` replaces all
occurrences, not only a leading one). -/
def candidateValue : Option PhoneElem → String
  | none => ""
  | some el =>
    if el.text.trim = "" then (el.href.getD "").replace "tel:" ""
    else el.text.trim

/-- The `for xpath in phone_candidates` loop of `_extract_company_info`
(scraper.py lines 107-117): candidates are tried in order; the loop breaks at
the first candidate yielding a non-empty value; a candidate that raises
`NoSuchElementException` (`none`) is skipped; if no candidate yields a value,
`phone_number` is left at its initializer `""`. -/
def phoneLoop : List (Option PhoneElem) → String
  | [] => ""
  | none :: rest => phoneLoop rest
  | some el :: rest =>
    if candidateValue (some el) = "" then phoneLoop rest
    else candidateValue (some el)

/-- `GoogleMapsScraper._extract_company_info` (scraper.py lines 86-119):
`nameEl` is the text of the `h1` heading when the 20 s wait finds one
(`none` models `TimeoutException`, leaving the name `""`); the returned
phone number is the loop result with a final `.strip()`. -/
def extract_company_info (nameEl : Option String)
    (phoneCands : List (Option PhoneElem)) : String × String :=
  ((nameEl.map String.trim).getD "", (phoneLoop phoneCands).trim)

/-- The identifiers of the records `_extract_reviews` returns are exactly the
identifiers of the non-stale elements whose `data-review-id` is truthy, in
traversal order — the pass performs no deduplication of its own. -/
lemma extract_reviews_map_id (c p : String) (els : List ReviewEl) :
    (extract_reviews c p els).map Record.review_id
      = (els.filter fun e => !e.staleEl && !(e.reviewId == "")).map ReviewEl.reviewId := by
  induction els with
  | nil => rfl
  | cons e rest ih =>
    simp only [extract_reviews, List.filterMap_cons, List.filter_cons] at ih ⊢
    by_cases hs : e.staleEl
    · simp [hs, ih]
    · by_cases hid : e.reviewId = ""
      · simp [hs, hid, ih]
      · simp [hs, hid, ih]

/-- A review element with a truthy identifier and no special behaviour,
used to exhibit the missing deduplication in the extraction pass. -/
def plainEl : ReviewEl :=
  { staleEl := false, reviewId := "r1", starLabel := none, textSpan := none,
    reviewerDiv := none, dateSpan := none }

/-- **C4 counterexample.** When the page presents two currently-rendered
elements carrying the same `data-review-id` (Google Maps nests several such
`div`s per review), `_extract_reviews` appends one record per element, so the
result of a single harvest contains two records with the same identifier:
`id` is not unique within the result set. -/
theorem extract_reviews_duplicate_ids :
    ¬ ((extract_reviews "c" "p" [plainEl, plainEl]).map Record.review_id).Nodup := by
  decide

/-- **C4 (amended).** The extraction pass performs no deduplication: the
record identifiers are unique in the result of a single harvest provided the
non-stale currently-present elements with truthy identifiers carry pairwise
distinct `data-review-id` values. -/
theorem extract_reviews_ids_nodup (c p : String) (els : List ReviewEl)
    (h : ((els.filter fun e => !e.staleEl && !(e.reviewId == "")).map
        ReviewEl.reviewId).Nodup) :
    ((extract_reviews c p els).map Record.review_id).Nodup := by
  rw [extract_reviews_map_id]
  exact h

/-- Witness for `extract_reviews_ids_nodup` on two elements with distinct
identifiers. -/
theorem extract_reviews_ids_nodup_witness :
    ((extract_reviews "c" "p"
      [{ staleEl := false, reviewId := "a", starLabel := none, textSpan := none,
         reviewerDiv := none, dateSpan := none },
       { staleEl := false, reviewId := "b", starLabel := none, textSpan := none,
         reviewerDiv := none, dateSpan := none }]).map Record.review_id).Nodup :=
  extract_reviews_ids_nodup "c" "p" _ (by decide)

/-- **C9.** Every non-stale element with a truthy identifier yields a record,
and when no star-label descendant matches inside the root element of the record
(`starLabel = none`), the rating of the record is the sentinel `"No rating"` —
present and non-empty, never absent or the empty string. -/
theorem extract_reviews_rating_sentinel (c p : String) (els : List ReviewEl)
    (e : ReviewEl) (he : e ∈ els) (hs : e.staleEl = false)
    (hid : e.reviewId ≠ "") (hstar : e.starLabel = none) :
    (∃ rec, rec ∈ extract_reviews c p els ∧ rec.review_id = e.reviewId ∧
      rec.rating = "No rating") ∧ ("No rating" : String) ≠ "" := by
  refine ⟨⟨{ review_id := e.reviewId
             reviewer := (e.reviewerDiv.map String.trim).getD ""
             rating := e.starLabel.getD "No rating"
             review_text := (e.textSpan.map String.trim).getD ""
             date := (e.dateSpan.map String.trim).getD ""
             company_name := c
             phone_number := p }, ?_, rfl, by rw [hstar]; rfl⟩, by decide⟩
  refine List.mem_filterMap.mpr ⟨e, he, ?_⟩
  simp [hs, hid]

/-- A review element none of whose per-field selectors match. -/
def bareEl : ReviewEl :=
  { staleEl := false, reviewId := "r9", starLabel := none, textSpan := none,
    reviewerDiv := none, dateSpan := none }

/-- Witness for `extract_reviews_rating_sentinel` on a concrete element with
no matching star label. -/
theorem extract_reviews_rating_sentinel_witness :
    (∃ rec, rec ∈ extract_reviews "c" "p" [bareEl] ∧ rec.review_id = bareEl.reviewId ∧
      rec.rating = "No rating") ∧ ("No rating" : String) ≠ "" :=
  extract_reviews_rating_sentinel "c" "p" [bareEl] bareEl (by simp) rfl
    (by decide) rfl

/-- The candidate loop of `_extract_company_info` returns the value of the
first candidate (in order) that yields a non-empty value, and `""` when no
candidate does. -/
lemma phoneLoop_eq_head (cands : List (Option PhoneElem)) :
    phoneLoop cands = ((cands.map candidateValue).filter fun s => !(s == "")).headD "" := by
  induction cands with
  | nil => rfl
  | cons c rest ih =>
    cases c with
    | none => simpa [phoneLoop, candidateValue] using ih
    | some el =>
      by_cases hv : candidateValue (some el) = ""
      · simp [phoneLoop, hv, ih]
      · simp [phoneLoop, hv]

/-- **C5 counterexample.** The claim says that for every field, when no
selector candidate resolves, the value of the field is the empty string.  For the
`rating` field of `_extract_reviews` this is false: an element inside which
no star-label descendant matches produces a record whose rating is the
sentinel `"No rating"`, not `""`. -/
theorem rating_default_not_empty_string :
    ((extract_reviews "c" "p"
      [{ staleEl := false, reviewId := "r5", starLabel := none, textSpan := none,
         reviewerDiv := none, dateSpan := none }]).map Record.rating) = ["No rating"]
    ∧ ("No rating" : String) ≠ "" := by
  constructor
  · rfl
  · decide

/-- **C5 (amended).** Per-field extraction evaluates its selector candidates
in order and yields the first non-empty match, missing matches never abort
the record or the harvest, and the no-match value is the empty string —
except for the review `rating` field, whose no-match value is the sentinel
`"No rating"` (and which reads the `aria-label` attribute rather than the
element text).  Concretely: (a) the phone number returned by
`_extract_company_info` is the value of the first candidate yielding a
non-empty value (element text, or the `href` attribute with the `"tel:"`
marker removed when the text is empty), `""` when none does; and (b) every
non-stale element with a truthy identifier still yields a record, each of
whose optional fields is the trimmed match text when the selector matches and
the initializer of the field (`""`, or `"No rating"` for rating) when it does
not. -/
theorem field_extractor_first_match (nameEl : Option String)
    (cands : List (Option PhoneElem)) (c p : String) (els : List ReviewEl) :
    ((extract_company_info nameEl cands).2
      = (((cands.map candidateValue).filter fun s => !(s == "")).headD "").trim)
    ∧ (∀ e, e ∈ els → e.staleEl = false → e.reviewId ≠ "" →
        ∃ rec, rec ∈ extract_reviews c p els ∧
          rec.review_id = e.reviewId ∧
          rec.reviewer = (e.reviewerDiv.map String.trim).getD "" ∧
          rec.rating = e.starLabel.getD "No rating" ∧
          rec.review_text = (e.textSpan.map String.trim).getD "" ∧
          rec.date = (e.dateSpan.map String.trim).getD "") := by
  constructor
  · show (phoneLoop cands).trim = _
    rw [phoneLoop_eq_head]
  · intro e he hs hid
    refine ⟨{ review_id := e.reviewId
              reviewer := (e.reviewerDiv.map String.trim).getD ""
              rating := e.starLabel.getD "No rating"
              review_text := (e.textSpan.map String.trim).getD ""
              date := (e.dateSpan.map String.trim).getD ""
              company_name := c
              phone_number := p }, ?_, rfl, rfl, rfl, rfl, rfl⟩
    refine List.mem_filterMap.mpr ⟨e, he, ?_⟩
    simp [hs, hid]

/-- Witness for `field_extractor_first_match`: second phone candidate is the
first non-empty one (via its `href`, `"tel:"` removed); a bare review element
still yields a record with all fields at their initializers. -/
theorem field_extractor_first_match_witness :
    ((extract_company_info (some "Café")
        [none, some { text := " ", href := some "tel:+15550100" }]).2
      = ((([none, some { text := " ", href := some "tel:+15550100" }].map
            candidateValue).filter fun s => !(s == "")).headD "").trim)
    ∧ (∃ rec, rec ∈ extract_reviews "c" "p" [bareEl] ∧
        rec.review_id = bareEl.reviewId ∧
        rec.reviewer = (bareEl.reviewerDiv.map String.trim).getD "" ∧
        rec.rating = bareEl.starLabel.getD "No rating" ∧
        rec.review_text = (bareEl.textSpan.map String.trim).getD "" ∧
        rec.date = (bareEl.dateSpan.map String.trim).getD "") :=
  ⟨(field_extractor_first_match (some "Café")
      [none, some { text := " ", href := some "tel:+15550100" }] "c" "p" [bareEl]).1,
   (field_extractor_first_match (some "Café")
      [none, some { text := " ", href := some "tel:+15550100" }] "c" "p" [bareEl]).2
      bareEl (by simp) rfl (by decide)⟩

/-! ## The harvest pipeline (`GoogleMapsScraper.scrape`) and the job tracker
(`app/main.py`)

A Python exception is modelled by its type and message: the three exception
classes `run_scraper_sync` distinguishes (`FileNotFoundError`, `ValueError`,
everything else). -/

inductive PyErr : Type
  | fileNotFound (msg : String)
  | valueError (msg : String)
  | other (msg : String)
deriving DecidableEq

/-- `str(e)` for a modelled exception. -/
def PyErr.msg : PyErr → String
  | .fileNotFound m => m
  | .valueError m => m
  | .other m => m

/-- Environment fixing the outcome of every external interaction one call to
`GoogleMapsScraper.scrape` performs.  `some e` in an `…Err` field means the
corresponding step raises `e`; `none` means it completes.  `driverSetOnFail`
records whether `self.driver` had already been assigned when `_setup_driver`
raised (it stays `None` if `webdriver.Chrome(...)` itself fails). -/
structure ScrapeWorld where
  setupErr : Option PyErr := none
  driverSetOnFail : Bool := false
  navErr : Option PyErr := none
  popupErr : Option PyErr := none
  infoErr : Option PyErr := none
  nameEl : Option String := none
  phoneCands : List (Option PhoneElem) := []
  tabFound : Bool := true
  tabErr : Option PyErr := none
  scrollErr : Option PyErr := none
  expandErr : Option PyErr := none
  listErr : Option PyErr := none
  elements : List ReviewEl := []

/-- Whether `self.driver` is truthy when the `finally` block of `scrape`
runs: `_setup_driver` assigns it unless `webdriver.Chrome` itself raised. -/
def ScrapeWorld.driverSet (w : ScrapeWorld) : Bool :=
  match w.setupErr with
  | none => true
  | some _ => w.driverSetOnFail

/-- The `try` body of `scrape` (scraper.py lines 266-288): `_setup_driver`,
`driver.get`, `_close_cookie_popup`, `_extract_company_info`,
`_open_reviews_tab` (raises when no reviews tab is clickable),
`_scroll_reviews` (its returned set is discarded), `_expand_see_more`,
`driver.find_elements` and the per-record extraction.  Stops at the first
step that raises. -/
def scrapeBody (w : ScrapeWorld) : Except PyErr (List Record) := do
  if let some e := w.setupErr then throw e
  if let some e := w.navErr then throw e
  if let some e := w.popupErr then throw e
  if let some e := w.infoErr then throw e
  let info := extract_company_info w.nameEl w.phoneCands
  if !w.tabFound then
    throw (.other
      "Could not open reviews section: Could not find the reviews tab on the page")
  if let some e := w.tabErr then throw e
  if let some e := w.scrollErr then throw e
  if let some e := w.expandErr then throw e
  if let some e := w.listErr then throw e
  pure (extract_reviews info.1 info.2 w.elements)

/-- `GoogleMapsScraper.scrape` (scraper.py lines 262-295): the whole body is
wrapped in `try ... except Exception as e: raise Exception(f"Scraping failed:
{str(e)}") ... finally: if self.driver: self.driver.quit()`.  The result is
the returned list or the re-wrapped exception, paired with whether the driver
was quit. -/
def scrape (w : ScrapeWorld) : Except PyErr (List Record) × Bool :=
  (match scrapeBody w with
    | .ok l => .ok l
    | .error e => .error (.other ("Scraping failed: " ++ e.msg)),
   w.driverSet)

/-- One tracked job, the dict stored in `jobs_db` (main.py).  Timestamp
fields are omitted: no claim concerns them and their values come from the
wall clock. -/
structure Job where
  job_id : String
  status : String
  maps_url : String
  error : Option String := none
  error_type : Option String := none
  total_reviews : Option Nat := none
  output_file : Option String := none
deriving DecidableEq

/-- The job record `start_scrape` inserts into `jobs_db` (main.py 132-138). -/
def newJob (jobId mapsUrl : String) : Job :=
  { job_id := jobId, status := "queued", maps_url := mapsUrl }

/-- `run_scraper_sync` (main.py lines 72-116), applied to the outcome of
`scraper.scrape()`: sets the job to `processing`, then on a non-empty result
list writes the output file and marks the job `completed`; an empty result
list raises `ValueError("No reviews were extracted from this location")`;
`except FileNotFoundError` classifies `chromedriver_not_found`,
`except ValueError` classifies `no_reviews`, `except Exception` classifies
`unknown`. -/
def run_scraper_sync (jobId cdPath : String)
    (outcome : Except PyErr (List Record)) (j : Job) : Job :=
  let j1 := { j with status := "processing" }
  match outcome with
  | .ok reviews_data =>
    if reviews_data.isEmpty then
      { j1 with status := "failed",
                error := some "No reviews were extracted from this location",
                error_type := some "no_reviews" }
    else
      { j1 with status := "completed",
                total_reviews := some reviews_data.length,
                output_file := some ("output/" ++ jobId ++ ".json") }
  | .error e =>
    match e with
    | .fileNotFound _ =>
      { j1 with status := "failed",
                error := some ("ChromeDriver not found at " ++ cdPath),
                error_type := some "chromedriver_not_found" }
    | .valueError m =>
      { j1 with status := "failed", error := some m,
                error_type := some "no_reviews" }
    | .other m =>
      { j1 with status := "failed", error := some m,
                error_type := some "unknown" }

/-- A submitted job run end to end: the background task applied to the result
of `scrape` in the world `w`. -/
def runJob (w : ScrapeWorld) (jobId cdPath mapsUrl : String) : Job :=
  run_scraper_sync jobId cdPath (scrape w).1 (newJob jobId mapsUrl)

/-- **C3.** If the harvest runs to the end of its extraction pass and the
resulting record list is empty, the submitted job ends in status `"failed"`
with `error_type = "no_reviews"` (the no-records error kind), never in
`"completed"`: `run_scraper_sync` raises
`ValueError("No reviews were extracted from this location")` on an empty
list and its `except ValueError` handler classifies it. -/
theorem empty_harvest_fails_no_records (w : ScrapeWorld)
    (jobId cdPath mapsUrl : String) (h : (scrape w).1 = Except.ok []) :
    (runJob w jobId cdPath mapsUrl).status = "failed"
    ∧ (runJob w jobId cdPath mapsUrl).error_type = some "no_reviews"
    ∧ (runJob w jobId cdPath mapsUrl).status ≠ "completed" := by
  have hr : runJob w jobId cdPath mapsUrl
      = run_scraper_sync jobId cdPath (Except.ok []) (newJob jobId mapsUrl) := by
    unfold runJob
    rw [h]
  rw [hr]
  refine ⟨rfl, rfl, ?_⟩
  show ("failed" : String) ≠ "completed"
  decide

/-- Witness for `empty_harvest_fails_no_records`: a session whose page shows
no review elements yields the empty list, and the job fails as
`no_reviews`. -/
theorem empty_harvest_fails_no_records_witness :
    (scrape ({} : ScrapeWorld)).1 = Except.ok []
    ∧ (runJob ({} : ScrapeWorld) "j1" "/usr/bin/chromedriver" "u").status = "failed"
    ∧ (runJob ({} : ScrapeWorld) "j1" "/usr/bin/chromedriver" "u").error_type
        = some "no_reviews" :=
  ⟨rfl,
   (empty_harvest_fails_no_records ({} : ScrapeWorld) "j1" "/usr/bin/chromedriver"
      "u" rfl).1,
   (empty_harvest_fails_no_records ({} : ScrapeWorld) "j1" "/usr/bin/chromedriver"
      "u" rfl).2.1⟩

/-- **C6.** On every exit path of `scrape` — success, any failing step, or a
fault in an earlier step — a driver that was acquired is quit by the
`finally` block before `scrape` returns or propagates: whenever
`self.driver` was assigned (setup succeeded, or setup failed after the
assignment), the released flag is true, whatever the outcome of the run. -/
theorem session_released_on_every_path (w : ScrapeWorld)
    (h : w.setupErr = none ∨ w.driverSetOnFail = true) :
    (scrape w).2 = true := by
  show w.driverSet = true
  rcases h with h | h
  · unfold ScrapeWorld.driverSet
    rw [h]
  · unfold ScrapeWorld.driverSet
    cases hs : w.setupErr
    · rfl
    · exact h

/-- Witness for `session_released_on_every_path`: a run that fails because no
reviews tab is clickable still quits the driver (and does propagate an
error). -/
theorem session_released_on_every_path_witness :
    (scrape { tabFound := false }).2 = true
    ∧ (scrape ({ tabFound := false } : ScrapeWorld)).1 = Except.error (PyErr.other
        "Scraping failed: Could not open reviews section: Could not find the reviews tab on the page") :=
  ⟨session_released_on_every_path { tabFound := false } (Or.inl rfl), rfl⟩

/-- A run in which `webdriver.Chrome(service=Service(path), ...)` raises
`FileNotFoundError` because the chromedriver binary does not exist. -/
def missingDriverWorld : ScrapeWorld :=
  { setupErr := some (PyErr.fileNotFound
      "[Errno 2] No such file or directory: chromedriver"),
    driverSetOnFail := false }

/-- **C7 evaluation at the failing input** (code bug).  When driver creation
fails during session setup, the blanket handler of `scrape`,
`except Exception as e: raise Exception(f"Scraping failed: {str(e)}")`
re-raises a plain `Exception`, erasing the `FileNotFoundError` type, so the
`except FileNotFoundError` handler of `run_scraper_sync` never matches and
the job is classified with the catch-all `error_type = "unknown"` — not
`"chromedriver_not_found"` as the claim and the dedicated handler intend. -/
theorem chromedriver_failure_classified_unknown :
    (runJob missingDriverWorld "j1" "chromedriver" "u").status = "failed"
    ∧ (runJob missingDriverWorld "j1" "chromedriver" "u").error_type = some "unknown"
    ∧ (runJob missingDriverWorld "j1" "chromedriver" "u").error_type
        ≠ some "chromedriver_not_found" := by
  refine ⟨rfl, rfl, ?_⟩
  decide

/-! ## Query endpoints (`get_job_status`, `download_results`) -/

/-- Outcome of a FastAPI route: a value, or a raised
`HTTPException(status_code, detail)`. -/
inductive ApiResult (α : Type) : Type
  | ok (val : α)
  | httpError (statusCode : Nat) (detail : String)
deriving DecidableEq

/-- `jobs_db` snapshot: the process-wide job map. -/
def JobsDb : Type := List (String × Job)

/-- `GET /job/{job_id}` (main.py lines 144-148). -/
def get_job_status (db : JobsDb) (jobId : String) : ApiResult Job :=
  match db.lookup jobId with
  | none => .httpError 404 "Job not found"
  | some j => .ok j

/-- `GET /download/{job_id}` (main.py lines 150-164).  `fileExists` models
`os.path.exists`; `readF` models reading and JSON-decoding the output file.
The Python guard `if not output_path or not os.path.exists(output_path)`
treats a missing key, an empty path and a non-existent file alike. -/
def download_results (db : JobsDb) (jobId : String)
    (fileExists : String → Bool) (readF : String → List Record) :
    ApiResult (String × List Record) :=
  match db.lookup jobId with
  | none => .httpError 404 "Job not found"
  | some job =>
    if job.status ≠ "completed" then .httpError 400 "Job not completed yet"
    else
      match job.output_file with
      | none => .httpError 404 "Output file not found"
      | some p =>
        if p = "" ∨ fileExists p = false then .httpError 404 "Output file not found"
        else .ok (jobId, readF p)

/-- **C8.** For a job identifier absent from `jobs_db`, both the status query
and the result query raise 404 "Job not found"; for a known job whose status
is not `"completed"` (e.g. `"processing"`), the result query raises the
"not yet completed" signal (400 "Job not completed yet") rather than any
intermediate result. -/
theorem status_result_queries (db : JobsDb) (jobId : String)
    (fileExists : String → Bool) (readF : String → List Record) :
    (db.lookup jobId = none →
      get_job_status db jobId = .httpError 404 "Job not found"
      ∧ download_results db jobId fileExists readF = .httpError 404 "Job not found")
    ∧ (∀ j, db.lookup jobId = some j → j.status ≠ "completed" →
      download_results db jobId fileExists readF
        = .httpError 400 "Job not completed yet") := by
  constructor
  · intro h
    constructor
    · unfold get_job_status
      rw [h]
    · unfold download_results
      rw [h]
  · intro j hj hs
    unfold download_results
    rw [hj]
    simp [hs]

/-- Witness for `status_result_queries`: a one-job map holding a
`processing` job answers 404 on an unknown id for both queries and 400 on
the result query on the known id. -/
theorem status_result_queries_witness :
    (get_job_status [("a", { newJob "a" "u" with status := "processing" })] "zzz"
        = .httpError 404 "Job not found"
      ∧ download_results [("a", { newJob "a" "u" with status := "processing" })] "zzz"
          (fun _ => true) (fun _ => []) = .httpError 404 "Job not found")
    ∧ download_results [("a", { newJob "a" "u" with status := "processing" })] "a"
        (fun _ => true) (fun _ => []) = .httpError 400 "Job not completed yet" :=
  ⟨(status_result_queries [("a", { newJob "a" "u" with status := "processing" })]
      "zzz" (fun _ => true) (fun _ => [])).1 rfl,
   (status_result_queries [("a", { newJob "a" "u" with status := "processing" })]
      "a" (fun _ => true) (fun _ => [])).2
      { newJob "a" "u" with status := "processing" } rfl (by decide)⟩

/-- **C10.** For a known job whose status is `"completed"` but whose stored
output file no longer exists (or whose record has no `output_file` pointer,
or an empty one), the result query raises 404 "Output file not found" instead
of returning the record list. -/
theorem completed_job_missing_file (db : JobsDb) (jobId : String)
    (fileExists : String → Bool) (readF : String → List Record) (j : Job)
    (h1 : db.lookup jobId = some j) (h2 : j.status = "completed")
    (h3 : j.output_file = none
      ∨ ∃ p, j.output_file = some p ∧ (p = "" ∨ fileExists p = false)) :
    download_results db jobId fileExists readF
      = .httpError 404 "Output file not found" := by
  unfold download_results
  rw [h1]
  rcases h3 with h | ⟨p, hp, hc⟩
  · simp [h2, h]
  · simp [h2, hp]
    intro hne
    rcases hc with hc | hc
    · exact absurd hc hne
    · exact hc

/-- A job that completed and recorded its output file under `output/a.json`. -/
def completedJobA : Job :=
  { newJob "a" "u" with status := "completed", output_file := some "output/a.json" }

/-- Witness for `completed_job_missing_file`: a completed job whose output
file has been deleted from disk. -/
theorem completed_job_missing_file_witness :
    download_results [("a", completedJobA)] "a" (fun _ => false) (fun _ => [])
      = .httpError 404 "Output file not found" :=
  completed_job_missing_file [("a", completedJobA)] "a" (fun _ => false)
    (fun _ => []) completedJobA rfl rfl
    (Or.inr ⟨"output/a.json", rfl, Or.inr rfl⟩)

end MapsScraper
